import Mathlib

/-!
Verification of `figma-api.py` (ohbus/figma-file-detials-extractor).

The script is shallowly embedded: Python dicts/lists/values become the
`JsonVal` inductive, each HTTP attempt's outcome is supplied by an
environment function `Nat → AttemptOutcome`, sleeps are logged in a trace,
and the file system is explicit where a function writes files.
-/

set_option maxHeartbeats 1000000

namespace Figma

/-- Python/JSON values as manipulated by the script. -/
inductive JsonVal where
  | null : JsonVal
  | bool : Bool → JsonVal
  | num  : Int → JsonVal
  | str  : String → JsonVal
  | arr  : List JsonVal → JsonVal
  | obj  : List (String × JsonVal) → JsonVal
deriving Repr

/-- Python truthiness (`if response`, `if team_id`, ...). -/
def truthy : JsonVal → Bool
  | .null => false
  | .bool b => b
  | .num n => n != 0
  | .str s => s != ""
  | .arr xs => !xs.isEmpty
  | .obj fs => !fs.isEmpty

/-- `d.get(k)` on a Python dict: the first binding of `k`, else `None`. -/
def JsonVal.get (j : JsonVal) (k : String) : JsonVal :=
  match j with
  | .obj fs => (fs.lookup k).getD .null
  | _ => .null

/-- `d.get(k, default)` on a Python dict. -/
def JsonVal.getD (j : JsonVal) (k : String) (d : JsonVal) : JsonVal :=
  match j with
  | .obj fs => (fs.lookup k).getD d
  | _ => d

/-- `len` of a JSON list value (the script only applies `len` to lists). -/
def jsonLen : JsonVal → Nat
  | .arr xs => xs.length
  | _ => 0

/-- The elements of a JSON list value. -/
def jsonArr : JsonVal → List JsonVal
  | .arr xs => xs
  | _ => []

/-- The string carried by a JSON string value. -/
def jsonStr : JsonVal → String
  | .str s => s
  | _ => ""

/-- The integer carried by a JSON number value. -/
def jsonNum : JsonVal → Int
  | .num n => n
  | _ => 0

/-- Does a JSON value equal the given Python string? -/
def JsonVal.isStr (j : JsonVal) (s : String) : Bool :=
  match j with
  | .str t => t == s
  | _ => false

/-- The key list of a JSON object value. -/
def JsonVal.fieldNames : JsonVal → List String
  | .obj fs => fs.map Prod.fst
  | _ => []

/-- The error dictionaries built at `figma-api.py` lines 126, 134, 137:
`{"error": True, "status_code": code, "message": msg}`. -/
def errorResult (code : Int) (msg : String) : JsonVal :=
  .obj [("error", .bool true), ("status_code", .num code), ("message", .str msg)]

/-! ## Resilient fetch primitive (`figma_api_get`, lines 93-137) -/

/-- One HTTP response as seen by `figma_api_get`: status code, the parsed
`Retry-After` header when present, the decoded JSON body (consulted only on
status 200), and the raw body text. -/
structure HttpResponse where
  status_code : Nat
  retryAfter : Option Nat
  json : JsonVal
  text : String

/-- What one attempt of `requests.get` produces: a response, or a raised
transport-level exception carrying `str(e)`. -/
inductive AttemptOutcome where
  | response : HttpResponse → AttemptOutcome
  | exn : String → AttemptOutcome

/-- The body of the `for attempt in range(max_retries)` loop of
`figma_api_get` (lines 107-137).  `env i` is the outcome of the request on
attempt `i`; `fuel` is the number of loop iterations left
(`max_retries - attempt`); `sleeps` accumulates every `time.sleep` duration
in order.  When the loop runs out of iterations the function falls through
to line 137. -/
def figma_api_get_go (env : Nat → AttemptOutcome) (max_retries : Nat) :
    Nat → Nat → List Nat → JsonVal × List Nat
  | _, 0, sleeps => (errorResult 0 "Max retries exceeded", sleeps)
  | attempt, fuel + 1, sleeps =>
    match env attempt with
    | .response r =>
      if r.status_code = 200 then
        (r.json, sleeps)
      else if r.status_code = 429 then
        figma_api_get_go env max_retries (attempt + 1) fuel
          (sleeps ++ [r.retryAfter.getD 60])
      else
        (errorResult (r.status_code : Int) r.text, sleeps)
    | .exn msg =>
      if attempt < max_retries - 1 then
        figma_api_get_go env max_retries (attempt + 1) fuel (sleeps ++ [2])
      else
        (errorResult 0 msg, sleeps)

/-- `figma_api_get(endpoint, params, max_retries)`: the result dictionary
together with the trace of `time.sleep` durations performed. -/
def figma_api_get (env : Nat → AttemptOutcome) (max_retries : Nat := 3) :
    JsonVal × List Nat :=
  figma_api_get_go env max_retries 0 max_retries []

/-! ## Page extraction (`get_pages`, lines 192-228) -/

/-- The page dictionary appended for one `CANVAS` child (lines 215-221). -/
def page_of_child (child : JsonVal) : JsonVal :=
  .obj [("id", child.get "id"),
        ("name", child.get "name"),
        ("type", child.get "type"),
        ("children_count", .num (jsonLen (child.getD "children" (.arr [])))),
        ("background_color", child.getD "backgroundColor" .null)]

/-- `get_pages` applied to the dictionary returned by
`figma_api_get(f"files/{file_key}")`: keep the document's top-level children
of type `"CANVAS"`, in order, projected through `page_of_child`; on a falsy
or error response return the empty list (lines 205-228). -/
def get_pages (response : JsonVal) : List JsonVal :=
  if truthy response && !truthy (response.get "error") then
    let document := response.getD "document" (.obj [])
    let children := jsonArr (document.getD "children" (.arr []))
    (children.filter fun child => (child.get "type").isStr "CANVAS").map page_of_child
  else
    []

/-! ## Team-ID-file ingestion (`get_teams_from_file`, lines 308-361) -/

/-- Python's `str.strip()`: drop whitespace from both ends. -/
def strip (s : String) : String :=
  String.mk
    (((s.data.dropWhile Char.isWhitespace).reverse.dropWhile
        Char.isWhitespace).reverse)

/-- Python's `str.startswith(pre)`. -/
def startswith (s pre : String) : Bool :=
  pre.data.isPrefixOf s.data

/-- The line loop of `get_teams_from_file` (lines 328-338): strip each line,
keep it when it is nonempty and not a `#` comment, appending in file order. -/
def read_team_ids_go : List String → List String → List String
  | team_ids, [] => team_ids
  | team_ids, line :: rest =>
    let team_id := strip line
    if !(team_id == "") && !startswith team_id "#" then
      read_team_ids_go (team_ids ++ [team_id]) rest
    else
      read_team_ids_go team_ids rest

/-- The team-ID list collected from the file's lines. -/
def read_team_ids (lines : List String) : List String :=
  read_team_ids_go [] lines

/-- `get_teams_from_file(team_ids_file)`: `fileContent` is `none` when the
file does not exist, otherwise its list of lines. -/
def get_teams_from_file (fileContent : Option (List String))
    (team_ids_file : String) : JsonVal :=
  match fileContent with
  | none =>
    .obj [("error", .bool true),
          ("message", .str ("Team IDs file not found: " ++ team_ids_file))]
  | some lines =>
    let team_ids := read_team_ids lines
    if team_ids.isEmpty then
      .obj [("error", .bool true),
            ("message", .str ("No valid team IDs found in " ++ team_ids_file))]
    else
      .obj [("team_ids", .arr (team_ids.map .str)),
            ("results", .obj
              [("source", .str ("file: " ++ team_ids_file)),
               ("total_teams", .num team_ids.length),
               ("processed_teams", .arr []),
               ("successful_teams", .num 0),
               ("failed_teams", .num 0)])]

/-! ## Decimal rendering of timestamps

The filenames embed `int(time.time())` rendered in decimal by the f-string.
The rendering is modelled explicitly so that distinctness of filenames for
distinct timestamps is provable. -/

/-- The character of one decimal digit. -/
def digitChar (n : Nat) : Char :=
  if n = 0 then '0' else if n = 1 then '1' else if n = 2 then '2'
  else if n = 3 then '3' else if n = 4 then '4' else if n = 5 then '5'
  else if n = 6 then '6' else if n = 7 then '7' else if n = 8 then '8'
  else '9'

/-- The decimal digit characters of a natural number, most significant
first. -/
def natDigitChars (n : Nat) : List Char :=
  if _h : n < 10 then [digitChar n]
  else natDigitChars (n / 10) ++ [digitChar (n % 10)]
decreasing_by
  simp_wf
  exact Nat.div_lt_self (by omega) (by norm_num)

/-- The decimal rendering of a natural number, as Python's f-string renders
an `int`. -/
def natToString (n : Nat) : String := String.mk (natDigitChars n)

/-- The numeric value of one digit character. -/
def digitVal (c : Char) : Nat := c.toNat - 48

/-- The value of a digit-character list read in base 10. -/
def digitsVal (cs : List Char) : Nat :=
  cs.foldl (fun acc c => 10 * acc + digitVal c) 0

theorem digitVal_digitChar (n : Nat) (h : n < 10) :
    digitVal (digitChar n) = n := by
  interval_cases n <;> rfl

theorem digitsVal_append_singleton (cs : List Char) (c : Char) :
    digitsVal (cs ++ [c]) = 10 * digitsVal cs + digitVal c := by
  simp [digitsVal, List.foldl_append]

theorem digitsVal_natDigitChars (n : Nat) :
    digitsVal (natDigitChars n) = n := by
  induction n using Nat.strong_induction_on with
  | _ n ih =>
    rw [natDigitChars]
    split
    · next h =>
      simp [digitsVal, digitVal_digitChar n h]
    · next h =>
      rw [digitsVal_append_singleton,
        ih (n / 10) (Nat.div_lt_self (by omega) (by norm_num)),
        digitVal_digitChar (n % 10) (Nat.mod_lt n (by norm_num))]
      omega

theorem natToString_injective : Function.Injective natToString := by
  intro a b h
  have hdata : natDigitChars a = natDigitChars b := by
    simpa [natToString] using congrArg String.data h
  calc a = digitsVal (natDigitChars a) := (digitsVal_natDigitChars a).symm
    _ = digitsVal (natDigitChars b) := by rw [hdata]
    _ = b := digitsVal_natDigitChars b

/-- Two strings with the same character data are equal. -/
theorem string_data_inj {a b : String} (h : a.data = b.data) : a = b := by
  cases a
  cases b
  exact congrArg String.mk h

/-! ## Export writer (`save_team_to_json`, lines 274-306) with a model of
`json.dump(..., indent=2)` -/

/-- JSON string escaping as `json.dumps` performs it for the characters the
script can produce. -/
def escapeChar (c : Char) : String :=
  if c = '"' then "\\\""
  else if c = '\\' then "\\\\"
  else if c = '\n' then "\\n"
  else if c = '\t' then "\\t"
  else if c = '\r' then "\\r"
  else String.singleton c

/-- Escape a whole string for JSON output. -/
def escapeString (s : String) : String :=
  String.join (s.data.map escapeChar)

/-- `2 * level` spaces of indentation. -/
def indentStr (level : Nat) : String :=
  String.mk (List.replicate (2 * level) ' ')

/-- `json.dumps(v, indent=2)` at nesting depth `level`. -/
def pyDumpsVal (level : Nat) : JsonVal → String
  | .null => "null"
  | .bool b => if b then "true" else "false"
  | .num n => toString n
  | .str s => "\"" ++ escapeString s ++ "\""
  | .arr xs =>
    if xs.isEmpty then "[]"
    else
      "[\n" ++
      String.intercalate ",\n"
        (xs.attach.map fun x => indentStr (level + 1) ++ pyDumpsVal (level + 1) x.1) ++
      "\n" ++ indentStr level ++ "]"
  | .obj fs =>
    if fs.isEmpty then "\x7b\x7d"
    else
      "\x7b\n" ++
      String.intercalate ",\n"
        (fs.attach.map fun f =>
          indentStr (level + 1) ++ "\"" ++ escapeString f.1.1 ++ "\": " ++
            pyDumpsVal (level + 1) f.1.2) ++
      "\n" ++ indentStr level ++ "\x7d"
termination_by j => sizeOf j
decreasing_by
  · simp_wf
    have := List.sizeOf_lt_of_mem x.2
    omega
  · simp_wf
    obtain ⟨⟨k, v⟩, hf⟩ := f
    have h1 := List.sizeOf_lt_of_mem hf
    simp at h1 ⊢
    omega

/-- The bytes `json.dump(team_data, f, indent=2)` writes. -/
def pyDumps (j : JsonVal) : String := pyDumpsVal 0 j

/-- `save_team_to_json(team_id, team_data, output_dir)` at wall-clock second
`timestamp`: the path written and the file content. -/
def save_team_to_json (team_id : String) (team_data : JsonVal)
    (output_dir : String) (timestamp : Nat) : String × String :=
  let filename := output_dir ++ "/team_" ++ team_id ++ "_" ++ natToString timestamp ++ ".json"
  (filename, pyDumps team_data)

/-! ## Consolidated aggregation (`save_all_data_to_single_json`, lines 687-835) -/

/-- The remote state seen by one run: the dictionary `get_team_projects`
returns for a team ID, the dictionary `get_files` returns for a project ID,
and the wall-clock value of `time.time()` (held fixed; no claim depends on
it advancing). -/
structure FetchEnv where
  team_projects : String → JsonVal
  project_files : JsonVal → JsonVal
  now : Int

/-- The per-project body of the inner loop (lines 744-778): the
`project_with_files` record appended to the team, paired with the number of
files added to `metadata["total_files"]` (0 when the file fetch errored). -/
def process_project (env : FetchEnv) (project : JsonVal) : JsonVal × Nat :=
  let project_id := project.get "id"
  let project_name := project.getD "name" (.str "Unknown")
  let files_response := env.project_files project_id
  if !truthy (files_response.get "error") then
    let files := files_response.getD "files" (.arr [])
    (.obj [("id", project_id), ("name", project_name), ("files", files),
           ("file_count", .num (jsonLen files)),
           ("fetched_at", .num env.now)],
     jsonLen files)
  else
    (.obj [("id", project_id), ("name", project_name),
           ("error", .bool true),
           ("message", files_response.get "message"),
           ("files", .arr []), ("file_count", .num 0),
           ("fetched_at", .num env.now)],
     0)

/-- The run-level counters and team list mutated by the team loop. -/
structure Consolidated where
  successful_teams : Nat
  failed_teams : Nat
  total_projects : Nat
  total_files : Nat
  teams : List JsonVal
deriving Repr

/-- The per-team body of the outer loop (lines 730-810). -/
def process_team (env : FetchEnv) (acc : Consolidated) (team_id : String) :
    Consolidated :=
  let team_response := env.team_projects team_id
  if !truthy (team_response.get "error") then
    let projects := jsonArr (team_response.getD "projects" (.arr []))
    let processed := projects.map (process_project env)
    let team_projects_with_files := processed.map Prod.fst
    let team_data := JsonVal.obj
      [("id", .str team_id), ("status", .str "success"),
       ("projects", .arr team_projects_with_files),
       ("project_count", .num team_projects_with_files.length),
       ("total_files", .num
         ((team_projects_with_files.map fun p => jsonNum (p.getD "file_count" (.num 0))).sum)),
       ("fetched_at", .num env.now)]
    { acc with
      teams := acc.teams ++ [team_data],
      successful_teams := acc.successful_teams + 1,
      total_projects := acc.total_projects + projects.length,
      total_files := acc.total_files + (processed.map Prod.snd).sum }
  else
    let error_team_data := JsonVal.obj
      [("id", .str team_id), ("status", .str "error"),
       ("error", .bool true),
       ("message", team_response.get "message"),
       ("projects", .arr []), ("project_count", .num 0),
       ("total_files", .num 0), ("fetched_at", .num env.now)]
    { acc with
      teams := acc.teams ++ [error_team_data],
      failed_teams := acc.failed_teams + 1 }

/-- `save_all_data_to_single_json(team_ids_file, output_dir)`: the
consolidated structure written to disk, or the early-return error string
when the team-ID file cannot be used. -/
def save_all_data_to_single_json (fileContent : Option (List String))
    (team_ids_file : String) (env : FetchEnv) : Except String JsonVal :=
  let file_data := get_teams_from_file fileContent team_ids_file
  if truthy (file_data.get "error") then
    .error ("Error reading teams from file: " ++ jsonStr (file_data.get "message"))
  else
    let team_ids := (jsonArr (file_data.getD "team_ids" (.arr []))).map jsonStr
    let final := team_ids.foldl (process_team env)
      ⟨0, 0, 0, 0, []⟩
    .ok (JsonVal.obj
      [("metadata", .obj
        [("source", .str team_ids_file),
         ("total_teams", .num team_ids.length),
         ("fetched_at", .num env.now),
         ("successful_teams", .num final.successful_teams),
         ("failed_teams", .num final.failed_teams),
         ("total_projects", .num final.total_projects),
         ("total_files", .num final.total_files)]),
       ("teams", .arr final.teams)])

/-! ## `save_teams_to_json` (lines 230-272) and the missing `get_teams` -/

/-- The top-level names bound by `figma-api.py` at module scope (its `def`
and `class` statements plus module constants). -/
def definedGlobals : List String :=
  ["LogColors", "ColoredFormatter", "setup_colored_logging", "logger",
   "FIGMA_ACCESS_TOKEN", "get_access_token", "figma_api_get",
   "get_user_info", "get_team_projects", "get_files", "get_pages",
   "save_teams_to_json", "save_team_to_json", "get_teams_from_file",
   "save_teams_from_file_to_json", "save_project_files_to_json",
   "save_teams_with_project_files_to_json", "save_all_data_to_single_json"]

/-- A Python expression evaluation: a value, or a raised exception
carrying `str(e)`. -/
inductive PyResult (α : Type) where
  | ok : α → PyResult α
  | exn : String → PyResult α

/-- Evaluating the call `get_teams()` at line 244: Python resolves the name
against the module globals, raising `NameError` when it is unbound.
`valueIfBound` stands for whatever the function would return if it existed. -/
def get_teams_call (valueIfBound : JsonVal) : PyResult JsonVal :=
  if definedGlobals.contains "get_teams" then .ok valueIfBound
  else .exn "name 'get_teams' is not defined"

/-- `save_teams_to_json(output_dir)` over an explicit file system (list of
written files): the returned message and the file system afterwards
(lines 242-272). -/
def save_teams_to_json (valueIfBound : JsonVal) (fs : List (String × String))
    (output_dir : String) (timestamp : Nat) : String × List (String × String) :=
  match get_teams_call valueIfBound with
  | .exn e => ("Failed to save teams data: " ++ e, fs)
  | .ok teams_data =>
    if truthy (teams_data.get "error") then
      ("Error fetching teams: " ++ jsonStr (teams_data.get "message"), fs)
    else
      let filename := "teams_" ++ natToString timestamp ++ ".json"
      let path := output_dir ++ "/" ++ filename
      ("Teams data successfully saved to " ++ path,
       fs ++ [(path, pyDumps teams_data)])

/-! ## Theorems about the fetch primitive -/

/-- **C1.** For every HTTP response whose status code is neither 200 nor 429,
`figma_api_get` returns, on the first attempt and with no sleep or retry
(empty sleep trace), the error dictionary carrying the original status code
and the response body text. -/
theorem C1_non200_non429_immediate (env : Nat → AttemptOutcome) (n : Nat)
    (r : HttpResponse) (hn : 0 < n) (h0 : env 0 = .response r)
    (h200 : r.status_code ≠ 200) (h429 : r.status_code ≠ 429) :
    figma_api_get env n = (errorResult (r.status_code : Int) r.text, []) := by
  obtain ⟨m, rfl⟩ : ∃ m, n = m + 1 := ⟨n - 1, (Nat.succ_pred_eq_of_pos hn).symm⟩
  simp [figma_api_get, figma_api_get_go, h0, h200, h429]

/-- Witness for C1: a 404 response with body `"Not Found"` is surfaced
immediately. -/
theorem C1_witness :
    figma_api_get (fun _ => .response ⟨404, none, .null, "Not Found"⟩) 3
      = (errorResult 404 "Not Found", []) :=
  C1_non200_non429_immediate _ 3 ⟨404, none, .null, "Not Found"⟩
    (by decide) rfl (by decide) (by decide)

/-- Exhausting the loop on consecutive 429 responses: every iteration whose
outcome is a 429 consumes one unit of `fuel`, and when the fuel runs out the
function falls through to the generic `"Max retries exceeded"` error. -/
theorem figma_api_get_go_all_429 (env : Nat → AttemptOutcome) (mr : Nat) :
    ∀ fuel attempt sleeps,
      (∀ i, attempt ≤ i → i < attempt + fuel →
        ∃ r, env i = .response r ∧ r.status_code = 429) →
      (figma_api_get_go env mr attempt fuel sleeps).1
          = errorResult 0 "Max retries exceeded" ∧
        (figma_api_get_go env mr attempt fuel sleeps).2.length
          = sleeps.length + fuel := by
  intro fuel
  induction fuel with
  | zero => intro attempt sleeps _; exact ⟨rfl, rfl⟩
  | succ f ih =>
    intro attempt sleeps h
    obtain ⟨r, hr, hr429⟩ := h attempt le_rfl (by omega)
    have h200 : r.status_code ≠ 200 := by omega
    obtain ⟨h1, h2⟩ := ih (attempt + 1) (sleeps ++ [r.retryAfter.getD 60])
      (fun i hi₁ hi₂ => h i (by omega) (by omega))
    constructor
    · simpa [figma_api_get_go, hr, h200, hr429] using h1
    · simp only [List.length_append, List.length_cons, List.length_nil] at h2
      simp [figma_api_get_go, hr, h200, hr429, h2]
      omega

/-- **C2 counterexample.** With `max_retries = 3`, three consecutive 429
responses exhaust the attempt budget with no transport exception at all
(the loop ends and returns the `"Max retries exceeded"` error after exactly
three sleeps); moreover, after two 429 responses a single transport
exception on the third attempt is already the last attempt, so 429s consume
the same budget as transport errors. -/
theorem C2_counterexample :
    figma_api_get (fun _ => .response ⟨429, some 1, .null, ""⟩) 3
        = (errorResult 0 "Max retries exceeded", [1, 1, 1]) ∧
      figma_api_get
          (fun i => if i < 2 then .response ⟨429, some 1, .null, ""⟩
                    else .exn "boom") 3
        = (errorResult 0 "boom", [1, 1]) :=
  ⟨rfl, rfl⟩

/-- **C2 amended.** Each 429 response consumes one iteration of the shared
`max_retries` loop budget: when every attempt yields a 429 response,
`figma_api_get` performs exactly `max_retries` attempts, sleeps once per
attempt, and then returns the status-0 `"Max retries exceeded"` error. -/
theorem C2_429_consumes_budget (env : Nat → AttemptOutcome) (n : Nat)
    (h : ∀ i, i < n → ∃ r, env i = .response r ∧ r.status_code = 429) :
    (figma_api_get env n).1 = errorResult 0 "Max retries exceeded" ∧
      (figma_api_get env n).2.length = n := by
  have := figma_api_get_go_all_429 env n n 0 []
    (fun i hi₁ hi₂ => h i (by omega))
  simpa [figma_api_get] using this

/-- Witness for C2 amended: three 429 responses, three sleeps, then the
generic exhaustion error. -/
theorem C2_429_consumes_budget_witness :
    (figma_api_get (fun _ => .response ⟨429, some 5, .null, ""⟩) 3).1
        = errorResult 0 "Max retries exceeded" ∧
      (figma_api_get (fun _ => .response ⟨429, some 5, .null, ""⟩) 3).2.length = 3 :=
  C2_429_consumes_budget _ 3 (fun _ _ => ⟨⟨429, some 5, .null, ""⟩, rfl, rfl⟩)

/-- Running the loop when every remaining attempt raises a transport
exception: each non-final attempt sleeps 2 seconds, and the final attempt
returns the status-0 error carrying that exception's text. -/
theorem figma_api_get_go_all_exn (env : Nat → AttemptOutcome)
    (msg : Nat → String) (mr : Nat) :
    ∀ fuel attempt sleeps, attempt + fuel = mr → 0 < fuel →
      (∀ i, attempt ≤ i → i < mr → env i = .exn (msg i)) →
      figma_api_get_go env mr attempt fuel sleeps
        = (errorResult 0 (msg (mr - 1)), sleeps ++ List.replicate (fuel - 1) 2) := by
  intro fuel
  induction fuel with
  | zero => intro attempt sleeps _ hpos; omega
  | succ f ih =>
    intro attempt sleeps hsum hpos h
    have hatt : env attempt = .exn (msg attempt) := h attempt le_rfl (by omega)
    by_cases hlast : attempt < mr - 1
    · have hf : 0 < f := by omega
      have hrec := ih (attempt + 1) (sleeps ++ [2]) (by omega) hf
        (fun i hi₁ hi₂ => h i (by omega) hi₂)
      have hrep : (2 : Nat) :: List.replicate (f - 1) 2 = List.replicate f 2 := by
        rw [← List.replicate_succ]
        congr 1
        omega
      simp only [figma_api_get_go, hatt, if_pos hlast, hrec]
      simp [List.append_assoc, ← hrep]
    · have hattEq : attempt = mr - 1 := by omega
      have hfEq : f = 0 := by omega
      subst hfEq
      subst hattEq
      simp [figma_api_get_go, hatt, if_neg hlast]

/-- **C3.** When every attempt raises a transport exception,
`figma_api_get` retries `max_retries - 1` additional times with a fixed
2-second sleep between attempts, and returns the status-0 error carrying
the text of the last attempt's exception. -/
theorem C3_transport_retry (env : Nat → AttemptOutcome) (msg : Nat → String)
    (n : Nat) (hn : 0 < n) (h : ∀ i, i < n → env i = .exn (msg i)) :
    figma_api_get env n
      = (errorResult 0 (msg (n - 1)), List.replicate (n - 1) 2) := by
  have := figma_api_get_go_all_exn env msg n n 0 [] (by omega) hn
    (fun i hi₁ hi₂ => h i hi₂)
  simpa [figma_api_get] using this

/-- Witness for C3: with the default budget of 3, a connection error on all
attempts yields two 2-second sleeps and the final exception text. -/
theorem C3_witness :
    figma_api_get (fun _ => .exn "Connection refused") 3
      = (errorResult 0 "Connection refused", [2, 2]) :=
  C3_transport_retry (fun _ => .exn "Connection refused")
    (fun _ => "Connection refused") 3 (by decide) (fun i _ => rfl)

/-- **C4.** On a 429 response, `figma_api_get` records exactly one sleep of
the `Retry-After` header's value (60 when the header is absent) and then
continues the loop at the next attempt, reissuing the same request. -/
theorem C4_rate_limit_sleep (env : Nat → AttemptOutcome) (n : Nat)
    (r : HttpResponse) (hn : 0 < n) (h0 : env 0 = .response r)
    (h429 : r.status_code = 429) :
    figma_api_get env n
      = figma_api_get_go env n 1 (n - 1) [r.retryAfter.getD 60] := by
  obtain ⟨m, rfl⟩ : ∃ m, n = m + 1 := ⟨n - 1, (Nat.succ_pred_eq_of_pos hn).symm⟩
  have h200 : r.status_code ≠ 200 := by omega
  simp [figma_api_get, figma_api_get_go, h0, h200, h429]

/-- Witness for C4: a 429 response with `Retry-After: 7` sleeps 7 seconds
before the next attempt; one with no header sleeps 60 seconds. -/
theorem C4_witness :
    figma_api_get (fun _ => .response ⟨429, some 7, .null, ""⟩) 3
        = figma_api_get_go (fun _ => .response ⟨429, some 7, .null, ""⟩) 3 1 2 [7] ∧
      figma_api_get (fun _ => .response ⟨429, none, .null, ""⟩) 3
        = figma_api_get_go (fun _ => .response ⟨429, none, .null, ""⟩) 3 1 2 [60] :=
  ⟨C4_rate_limit_sleep _ 3 ⟨429, some 7, .null, ""⟩ (by decide) rfl rfl,
   C4_rate_limit_sleep _ 3 ⟨429, none, .null, ""⟩ (by decide) rfl rfl⟩

/-! ## Theorems about page extraction -/

/-- **C6.** On a successfully fetched file document, `get_pages` returns
exactly the `CANVAS`-typed top-level children, in source order (it is the
`page_of_child` image of the order-preserving filter of the children list),
each page exposing exactly the fields `id`, `name`, `type`,
`children_count`, `background_color`, with `children_count` the length of
the source node's child list. -/
theorem C6_page_extraction (resp : JsonVal) (cs : List JsonVal)
    (htruthy : truthy resp = true)
    (herr : truthy (resp.get "error") = false)
    (hcs : (resp.getD "document" (.obj [])).getD "children" (.arr []) = .arr cs) :
    get_pages resp
        = (cs.filter fun c => (c.get "type").isStr "CANVAS").map page_of_child
      ∧ (get_pages resp).length
          = cs.countP (fun c => (c.get "type").isStr "CANVAS")
      ∧ ∀ c, (page_of_child c).fieldNames
            = ["id", "name", "type", "children_count", "background_color"]
          ∧ (page_of_child c).get "children_count"
            = .num (jsonLen (c.getD "children" (.arr []))) := by
  have hmain : get_pages resp
      = (cs.filter fun c => (c.get "type").isStr "CANVAS").map page_of_child := by
    simp [get_pages, htruthy, herr, hcs, jsonArr]
  refine ⟨hmain, ?_, fun c => ⟨rfl, rfl⟩⟩
  rw [hmain]
  simp [List.countP_eq_length_filter]

/-- Witness for C6: a document with one `CANVAS` child (holding two
elements) and one non-`CANVAS` child yields exactly one page. -/
theorem C6_witness :
    get_pages (JsonVal.obj [("document", .obj [("children", .arr
        [.obj [("id", .str "1:1"), ("name", .str "Page 1"),
               ("type", .str "CANVAS"),
               ("children", .arr [.obj [], .obj []]),
               ("backgroundColor", .str "#fff")],
         .obj [("id", .str "1:2"), ("type", .str "COMPONENT")]])])])
      = [JsonVal.obj [("id", .str "1:1"), ("name", .str "Page 1"),
                      ("type", .str "CANVAS"), ("children_count", .num 2),
                      ("background_color", .str "#fff")]] :=
  (C6_page_extraction
      (JsonVal.obj [("document", .obj [("children", .arr
        [.obj [("id", .str "1:1"), ("name", .str "Page 1"),
               ("type", .str "CANVAS"),
               ("children", .arr [.obj [], .obj []]),
               ("backgroundColor", .str "#fff")],
         .obj [("id", .str "1:2"), ("type", .str "COMPONENT")]])])])
      [.obj [("id", .str "1:1"), ("name", .str "Page 1"),
             ("type", .str "CANVAS"),
             ("children", .arr [.obj [], .obj []]),
             ("backgroundColor", .str "#fff")],
       .obj [("id", .str "1:2"), ("type", .str "COMPONENT")]]
      rfl rfl rfl).1

/-- **C10.** `get_pages` collapses every failed fetch to the empty list (as
it does every falsy response), which is also exactly what it returns for a
successfully fetched document with no `CANVAS` children, so the two cases
are indistinguishable in its result. -/
theorem C10_error_collapsed_to_empty (resp : JsonVal)
    (herr : truthy (resp.get "error") = true) :
    get_pages resp = []
      ∧ (∀ r, truthy r = false → get_pages r = [])
      ∧ get_pages (JsonVal.obj [("document", .obj [("children", .arr [])])]) = []
      ∧ truthy ((JsonVal.obj [("document", .obj [("children", .arr [])])]).get
          "error") = false := by
  refine ⟨?_, fun r hr => ?_, rfl, rfl⟩
  · simp [get_pages, herr]
  · simp [get_pages, hr]

/-- Witness for C10: the error dictionary for a 404 yields the same empty
page list as an error-free empty document. -/
theorem C10_witness :
    get_pages (errorResult 404 "Not Found") = [] :=
  (C10_error_collapsed_to_empty (errorResult 404 "Not Found") rfl).1

/-! ## Theorems about team-ID-file ingestion -/

/-- The line loop of `get_teams_from_file`, run from any accumulator, keeps
exactly the stripped lines that are nonempty and not `#` comments, in file
order. -/
theorem read_team_ids_go_eq (lines : List String) :
    ∀ acc : List String,
      read_team_ids_go acc lines
        = acc ++ (lines.map strip).filter
            (fun t => !(t == "") && !startswith t "#") := by
  induction lines with
  | nil => intro acc; simp [read_team_ids_go]
  | cons l ls ih =>
    intro acc
    rw [read_team_ids_go]
    by_cases hp : (!(strip l == "") && !startswith (strip l) "#") = true
    · have hf : List.filter (fun t => !(t == "") && !startswith t "#")
            (strip l :: ls.map strip)
          = strip l
            :: List.filter (fun t => !(t == "") && !startswith t "#") (ls.map strip) :=
        List.filter_cons_of_pos hp
      rw [if_pos hp, ih, List.map_cons, hf, List.append_assoc]
      rfl
    · have hf : List.filter (fun t => !(t == "") && !startswith t "#")
            (strip l :: ls.map strip)
          = List.filter (fun t => !(t == "") && !startswith t "#") (ls.map strip) :=
        List.filter_cons_of_neg (by simpa using hp)
      rw [if_neg hp, ih, List.map_cons, hf]

/-- **C7.** Team-ID-file parsing yields exactly the stripped nonempty
non-`#` lines in file order (in particular, the spec's four-line example
yields `["team1", "team2"]`), and an absent file or a file with no usable
IDs produces an error dictionary with a descriptive message. -/
theorem C7_team_id_file_parsing (f : String) (lines : List String) :
    read_team_ids ["team1", "", "# comment", "team2"] = ["team1", "team2"]
      ∧ read_team_ids lines
          = (lines.map strip).filter (fun t => !(t == "") && !startswith t "#")
      ∧ get_teams_from_file none f
          = .obj [("error", .bool true),
                  ("message", .str ("Team IDs file not found: " ++ f))]
      ∧ (read_team_ids lines = [] →
          get_teams_from_file (some lines) f
            = .obj [("error", .bool true),
                    ("message", .str ("No valid team IDs found in " ++ f))]) := by
  refine ⟨rfl, read_team_ids_go_eq lines [], rfl, fun hempty => ?_⟩
  simp [get_teams_from_file, hempty]

/-- Witness for C7: a file holding only a comment line and a blank line is
rejected with the descriptive error. -/
theorem C7_witness :
    get_teams_from_file (some ["# only a comment", "  "]) "team_ids"
      = .obj [("error", .bool true),
              ("message", .str "No valid team IDs found in team_ids")] :=
  (C7_team_id_file_parsing "team_ids" ["# only a comment", "  "]).2.2.2 rfl

/-! ## Theorems about the export writer -/

/-- **C8.** The export writer is deterministic in its serialized content:
saving the same in-memory structure at two different timestamps writes
byte-identical JSON content, while the timestamp-derived filenames differ. -/
theorem C8_export_writer_deterministic (team_id : String) (team_data : JsonVal)
    (output_dir : String) (t1 t2 : Nat) :
    (save_team_to_json team_id team_data output_dir t1).2
        = (save_team_to_json team_id team_data output_dir t2).2
      ∧ (t1 ≠ t2 →
          (save_team_to_json team_id team_data output_dir t1).1
            ≠ (save_team_to_json team_id team_data output_dir t2).1) := by
  refine ⟨rfl, fun hne heq => hne ?_⟩
  apply natToString_injective
  simp only [save_team_to_json] at heq
  have hd := congrArg String.data heq
  simp only [String.data_append, List.append_assoc] at hd
  have h1 := List.append_cancel_left hd
  have h2 := List.append_cancel_left h1
  have h3 := List.append_cancel_left h2
  have h4 := List.append_cancel_left h3
  exact string_data_inj (List.append_cancel_right h4)

/-- Witness for C8: saving the empty team structure at timestamps 1 and 2
yields identical content and distinct filenames. -/
theorem C8_witness :
    (save_team_to_json "t1" (.obj []) "data" 1).2
        = (save_team_to_json "t1" (.obj []) "data" 2).2
      ∧ (save_team_to_json "t1" (.obj []) "data" 1).1
        ≠ (save_team_to_json "t1" (.obj []) "data" 2).1 :=
  ⟨(C8_export_writer_deterministic "t1" (.obj []) "data" 1 2).1,
   (C8_export_writer_deterministic "t1" (.obj []) "data" 1 2).2 (by decide)⟩

/-! ## Theorems about `save_teams_to_json` -/

/-- **C9.** `save_teams_to_json` can never succeed: its body calls
`get_teams`, a name bound nowhere in the module, so the `NameError` raised
at line 244 is caught by the handler at line 269; the function always
returns a message beginning `"Failed to save teams data:"` and writes no
file. -/
theorem C9_save_teams_always_fails (valueIfBound : JsonVal)
    (fs : List (String × String)) (output_dir : String) (timestamp : Nat) :
    startswith (save_teams_to_json valueIfBound fs output_dir timestamp).1
        "Failed to save teams data:" = true
      ∧ (save_teams_to_json valueIfBound fs output_dir timestamp).2 = fs := by
  have hno : ¬ (definedGlobals.contains "get_teams" = true) := by decide
  constructor
  · simp only [save_teams_to_json, get_teams_call, if_neg hno]
    rfl
  · simp only [save_teams_to_json, get_teams_call, if_neg hno]

/-! ## Theorems about the consolidated aggregation -/

/-- When the project fetch for a team errors, the team loop appends exactly
one error-tagged team record (empty project list, original message, zero
counts) and increments only `failed_teams` (lines 794-810). -/
theorem process_team_error_branch (env : FetchEnv) (acc : Consolidated)
    (team_id : String)
    (herr : truthy ((env.team_projects team_id).get "error") = true) :
    process_team env acc team_id
      = { acc with
          teams := acc.teams ++
            [JsonVal.obj
              [("id", .str team_id), ("status", .str "error"),
               ("error", .bool true),
               ("message", (env.team_projects team_id).get "message"),
               ("projects", .arr []), ("project_count", .num 0),
               ("total_files", .num 0), ("fetched_at", .num env.now)]],
          failed_teams := acc.failed_teams + 1 } := by
  rw [process_team]
  simp [herr]

/-- **C5.** For a team-IDs file yielding exactly one ID whose project fetch
errors, the consolidated structure holds exactly one team entry with status
`"error"`, `project_count` 0 and the original failure message, and its
metadata reports `successful_teams` 0 and `failed_teams` 1. -/
theorem C5_single_failed_team (lines : List String) (f : String)
    (env : FetchEnv) (tid : String)
    (hparse : read_team_ids lines = [tid])
    (herr : truthy ((env.team_projects tid).get "error") = true) :
    save_all_data_to_single_json (some lines) f env
      = .ok (JsonVal.obj
        [("metadata", .obj
          [("source", .str f), ("total_teams", .num 1),
           ("fetched_at", .num env.now),
           ("successful_teams", .num 0), ("failed_teams", .num 1),
           ("total_projects", .num 0), ("total_files", .num 0)]),
         ("teams", .arr
           [.obj [("id", .str tid), ("status", .str "error"),
                  ("error", .bool true),
                  ("message", (env.team_projects tid).get "message"),
                  ("projects", .arr []), ("project_count", .num 0),
                  ("total_files", .num 0), ("fetched_at", .num env.now)]])]) := by
  have hfile : get_teams_from_file (some lines) f
      = .obj [("team_ids", .arr [.str tid]),
              ("results", .obj
                [("source", .str ("file: " ++ f)), ("total_teams", .num 1),
                 ("processed_teams", .arr []), ("successful_teams", .num 0),
                 ("failed_teams", .num 0)])] := by
    simp [get_teams_from_file, hparse]
  have key : save_all_data_to_single_json (some lines) f env
      = .ok (JsonVal.obj
        [("metadata", .obj
          [("source", .str f), ("total_teams", .num 1),
           ("fetched_at", .num env.now),
           ("successful_teams",
             .num (process_team env ⟨0, 0, 0, 0, []⟩ tid).successful_teams),
           ("failed_teams",
             .num (process_team env ⟨0, 0, 0, 0, []⟩ tid).failed_teams),
           ("total_projects",
             .num (process_team env ⟨0, 0, 0, 0, []⟩ tid).total_projects),
           ("total_files",
             .num (process_team env ⟨0, 0, 0, 0, []⟩ tid).total_files)]),
         ("teams", .arr (process_team env ⟨0, 0, 0, 0, []⟩ tid).teams)]) := by
    unfold save_all_data_to_single_json
    rw [hfile]
    exact rfl
  rw [key, process_team_error_branch env ⟨0, 0, 0, 0, []⟩ tid herr]
  exact rfl

/-- Witness for C5: one team whose project fetch is rejected with a 403. -/
theorem C5_witness :
    save_all_data_to_single_json (some ["team-err"]) "team_ids"
        ⟨fun _ => errorResult 403 "Forbidden", fun _ => .obj [], 0⟩
      = .ok (JsonVal.obj
        [("metadata", .obj
          [("source", .str "team_ids"), ("total_teams", .num 1),
           ("fetched_at", .num 0),
           ("successful_teams", .num 0), ("failed_teams", .num 1),
           ("total_projects", .num 0), ("total_files", .num 0)]),
         ("teams", .arr
           [.obj [("id", .str "team-err"), ("status", .str "error"),
                  ("error", .bool true), ("message", .str "Forbidden"),
                  ("projects", .arr []), ("project_count", .num 0),
                  ("total_files", .num 0), ("fetched_at", .num 0)]])]) :=
  C5_single_failed_team ["team-err"] "team_ids"
    ⟨fun _ => errorResult 403 "Forbidden", fun _ => .obj [], 0⟩
    "team-err" rfl rfl

end Figma
